import Mathlib

/-!
Shallow embedding of `fakesnow/__init__.py`: the `patch` context manager
(target resolution and scoped symbol substitution) and the `server` context
manager (background server lifecycle).

Modelling conventions for `patch`:
* A module symbol's value is a `Value`: an original callable (identified by a
  numeric id standing for Python object identity), a `MagicMock` substitution
  artifact wrapping a fake id (its `side_effect`), or some other object.
* The process's loaded-module symbol tables (`sys.modules` plus each module's
  `__dict__`) are an `Env`: a function from (module name, symbol name) to
  `Option Value`; `none` models `module.__dict__.get(fn_name)` returning
  `None`.  Modules are taken as already loaded, so
  `sys.modules.get(...) or importlib.import_module(...)` is resolution in the
  same `Env`; import side effects are not modelled beyond the skip rule the
  code itself implements.
* `mock.patch(im, side_effect=fake)` entered on an `ExitStack` is modelled by
  setting the symbol to `Value.magicMock fake` and pushing an undo record
  (key, original value); `stack.close()` is `teardown`, restoring records in
  reverse order of application.
* Python `assert` failures during setup are the `PatchError` results; the
  generator has not reached its `try`/`finally` at that point, so the
  `ExitStack` is not closed on a setup error (see `patchScope`).
-/

inductive Value where
  | orig (id : Nat)
  | magicMock (sideEffect : Nat)
  | other (id : Nat)
deriving DecidableEq

/-- `isinstance(fn, mock.MagicMock)`. -/
def isMagicMock : Value → Bool
  | Value.magicMock _ => true
  | _ => false

abbrev Env := String × String → Option Value

/-- Overwrite one module symbol (`setattr(module, fn_name, v)`). -/
def envUpdate (env : Env) (key : String × String) (v : Value) : Env :=
  fun k => if k = key then some v else env k

/-- One step of `im.split(".")`: split a character list on dots. -/
def splitDotsAux (c : Char) (acc : List String) : List String :=
  if c = '.' then "" :: acc
  else
    match acc with
    | [] => [String.singleton c]
    | s :: rest => (String.singleton c ++ s) :: rest

/-- `im.split(".")`. -/
def splitDots (s : String) : List String := s.toList.foldr splitDotsAux [""]

/-- `".".join(parts)`. -/
def joinDots : List String → String
  | [] => ""
  | [s] => s
  | s :: t :: rest => s ++ "." ++ joinDots (t :: rest)

/-- `module_name = ".".join(im.split(".")[:-1])`, `fn_name = im.split(".")[-1]`. -/
def splitTarget (im : String) : String × String :=
  (joinDots (splitDots im).dropLast, (splitDots im).getLastD "")

/-- Fake callables are identified by numeric id; `fs.connect` of the fresh
`FakeSnow` instance and `fakes.write_pandas`. -/
def fsConnectFake : Nat := 0

def writePandasFake : Nat := 1

/-- The `fake_fns` dict: original callable (by identity) to its fake. -/
abbrev Registry := List (Value × Nat)

/-- `fake_fns.get(fn)`: identity lookup of a current value. -/
def registryLookup (reg : Registry) (v : Value) : Option Nat :=
  match reg with
  | [] => none
  | (k, f) :: rest => if k = v then some f else registryLookup rest v

inductive PatchError where
  | alreadyPatched
  | attrMissing
  | noModuleVar (im : String)
  | unmappedTarget (im : String)
deriving DecidableEq

/-- The `ExitStack` contents paired with the current symbol tables: each undo
record is (module, symbol) with the original value `mock.patch` will restore. -/
structure PatchState where
  env : Env
  stack : List ((String × String) × Value)

def stdTargets : List String :=
  ["snowflake.connector.connect", "snowflake.connector.pandas_tools.write_pandas"]

/-- One iteration of the `for im in std_targets + extra_targets` loop:
resolve the symbol, `assert fn`, skip if already a `MagicMock`, look the value
up in `fake_fns`, `assert fake`, and enter `mock.patch(im, side_effect=fake)`
on the stack. -/
def setupStep (fakeFns : Registry) (s : PatchState) (im : String) :
    Except PatchError PatchState :=
  match s.env (splitTarget im) with
  | none => Except.error (PatchError.noModuleVar im)
  | some fn =>
    if isMagicMock fn then Except.ok s
    else
      match registryLookup fakeFns fn with
      | none => Except.error (PatchError.unmappedTarget im)
      | some fake =>
        Except.ok
          { env := envUpdate s.env (splitTarget im) (Value.magicMock fake),
            stack := (splitTarget im, fn) :: s.stack }

/-- The whole setup loop.  On an assertion failure it stops and reports the
error together with the state reached so far (the partially-filled stack and
the partially-substituted symbol tables). -/
def setupLoop (fakeFns : Registry) (s : PatchState) :
    List String → PatchState × Option PatchError
  | [] => (s, none)
  | im :: rest =>
    match setupStep fakeFns s im with
    | Except.error e => (s, some e)
    | Except.ok s' => setupLoop fakeFns s' rest

/-- `stack.close()`: undo records applied in reverse insertion order (the head
of the stack is the most recent substitution). -/
def teardown (env : Env) : List ((String × String) × Value) → Env
  | [] => env
  | (k, v) :: rest => teardown (envUpdate env k v) rest

/-- The body of `patch(...)` up to the `yield`: the entry-guard assert on
`snowflake.connector.connect`, the construction of `fake_fns` from the current
values of the two standard targets, and the setup loop over
`std_targets + extra_targets`. -/
def patchSetup (env : Env) (extras : List String) :
    PatchState × Option PatchError :=
  match env ("snowflake.connector", "connect") with
  | none => (⟨env, []⟩, some PatchError.attrMissing)
  | some c =>
    if isMagicMock c then (⟨env, []⟩, some PatchError.alreadyPatched)
    else
      match env ("snowflake.connector.pandas_tools", "write_pandas") with
      | none => (⟨env, []⟩, some PatchError.attrMissing)
      | some w =>
        setupLoop [(c, fsConnectFake), (w, writePandasFake)] ⟨env, []⟩
          (stdTargets ++ extras)

/-- A full pass through the `patch` context manager, returning the final
symbol tables and the error, if any.  When setup fails the generator never
reaches its `try`/`finally`, so `stack.close()` does not run and the
partially-substituted tables are returned as they stand; when setup succeeds,
scope exit (normal or exceptional) runs `stack.close()`, i.e. `teardown`. -/
def patchScope (env : Env) (extras : List String) : Env × Option PatchError :=
  match patchSetup env extras with
  | (s, some e) => (s.env, some e)
  | (s, none) => (teardown s.env s.stack, none)

/-!
Shallow embedding of `server(port, session_parameters)`.

* A session-parameter value is a `SPVal` (`str | int | bool`); a mapping is an
  association list with Python-dict semantics (`spLookup` is key lookup,
  `dictMerge` is the `|` merge operator: left operand's keys in order with the
  right operand's value winning on collision, then the right operand's new
  keys).
* The OS-assigned ephemeral port obtained by binding a throwaway socket to
  `("127.0.0.1", 0)` and reading it back is an oracle argument `osAssigned`;
  `isEphemeralPort` is modelled from the spec: the Linux ephemeral-port range
  an OS-assigned port falls in.  `resolvePort` is the
  `if not port:` allocation step (Python truthiness: `None` and `0` both take
  the allocation branch).
* The thread running `server.run` is summarised by the value of
  `server.started` observed when the `while thread.is_alive() and not
  server.started` poll loop exits, and by whether the caller's block raises;
  `serverScopeTrace` lists the manager's own actions in program order from
  that point on, and `serverScopeYield` gives the connection parameters the
  scope yields, if any.
-/

inductive SPVal where
  | str (s : String)
  | int (n : Int)
  | bool (b : Bool)
deriving DecidableEq

abbrev SPDict := List (String × SPVal)

/-- Python dict key lookup (first matching key of an association list). -/
def spLookup (k : String) : SPDict → Option SPVal
  | [] => none
  | (k', v) :: rest => if k' = k then some v else spLookup k rest

/-- Python `l | r` on dicts: keys of `l` in order, with `r`'s value on a
colliding key, followed by the keys only `r` has, in order. -/
def dictMerge (l r : SPDict) : SPDict :=
  l.map (fun kv => (kv.1, (spLookup kv.1 r).getD kv.2)) ++
    r.filter (fun kv => (spLookup kv.1 l).isNone)

def telemetryKey : String := "CLIENT_OUT_OF_BAND_TELEMETRY_ENABLED"

/-- The fixed default `{"CLIENT_OUT_OF_BAND_TELEMETRY_ENABLED": False}`. -/
def defaultSessionParameters : SPDict := [(telemetryKey, SPVal.bool false)]

/-- Modelled from the spec: the throwaway-socket probe is an OS service, not
code of this repository; an OS-assigned ephemeral port lies in the default
Linux ephemeral range 32768..60999. -/
def isEphemeralPort (p : Int) : Prop := 32768 ≤ p ∧ p ≤ 60999

instance (p : Int) : Decidable (isEphemeralPort p) := by
  unfold isEphemeralPort; infer_instance

/-- `if not port: ... port = sock.getsockname()[1]`: a `None` or `0` port is
replaced by the OS-assigned ephemeral port, any other value is kept. -/
def resolvePort (port : Option Int) (osAssigned : Int) : Int :=
  match port with
  | none => osAssigned
  | some p => if p = 0 then osAssigned else p

/-- The `dict(...)` yielded by `server`. -/
structure ConnParams where
  user : String
  password : String
  account : String
  host : String
  port : Int
  protocol : String
  session_parameters : SPDict
  network_timeout : Int
deriving DecidableEq

/-- `yield dict(user="fake", ..., session_parameters={...} | (session_parameters
or {}), network_timeout=1)`. -/
def serverConnParams (port : Int) (sessionParameters : Option SPDict) :
    ConnParams :=
  { user := "fake", password := "snow", account := "fakesnow",
    host := "localhost", port := port, protocol := "http",
    session_parameters :=
      dictMerge defaultSessionParameters (sessionParameters.getD []),
    network_timeout := 1 }

inductive ServerEvent where
  | raiseStartupFailure
  | yieldParams
  | bodyReturn
  | bodyRaise
  | setShouldExit
  | joinThread
  | returnToCaller
  | propagateBodyError
deriving DecidableEq

/-- The manager's actions in program order once the readiness poll has exited
with `server.started = started`: either `raise RuntimeError("Failed to start
server")`, or yield, run the caller's block, and in the `finally` set
`server.should_exit = True` then `thread.join()` before control leaves the
scope (normally or by re-raising the block's exception). -/
def serverScopeTrace (started : Bool) (bodyRaises : Bool) : List ServerEvent :=
  if !started then [ServerEvent.raiseStartupFailure]
  else
    [ServerEvent.yieldParams,
     if bodyRaises then ServerEvent.bodyRaise else ServerEvent.bodyReturn,
     ServerEvent.setShouldExit,
     ServerEvent.joinThread,
     if bodyRaises then ServerEvent.propagateBodyError
     else ServerEvent.returnToCaller]

/-- The connection parameters the scope yields, `none` when startup failed. -/
def serverScopeYield (started : Bool) (port : Int)
    (sessionParameters : Option SPDict) : Option ConnParams :=
  if !started then none else some (serverConnParams port sessionParameters)

/-- `a` occurs strictly before the first occurrence of `b` in `t`. -/
def occursBefore (a b : ServerEvent) (t : List ServerEvent) : Bool :=
  (t.takeWhile (fun e => e ≠ b)).any (fun e => e = a)

/-- Every undo record on the stack is for a symbol that currently holds a
substitution artifact (the invariant that makes undo records non-stale). -/
def stackMocked (s : PatchState) : Prop :=
  ∀ rec ∈ s.stack, ∃ fid, s.env rec.1 = some (Value.magicMock fid)

/-!  Concrete fixtures used by witnesses and counterexamples. -/

def origConnect : Value := Value.orig 10

def origWritePandas : Value := Value.orig 11

/-- A concrete pre-scope symbol table: the two standard targets hold their
originals, `mymod` re-imports `snowflake.connector.connect` as `connect2` and
also defines an unrelated callable. -/
def cEnv : Env := fun k =>
  if k = ("snowflake.connector", "connect") then some origConnect
  else if k = ("snowflake.connector.pandas_tools", "write_pandas") then
    some origWritePandas
  else if k = ("mymod", "connect2") then some origConnect
  else if k = ("mymod", "unrelated") then some (Value.other 42)
  else none

/-- A symbol table in which a patch scope is already active: the primary
standard target holds a substitution artifact. -/
def cEnvPatched : Env := fun k =>
  if k = ("snowflake.connector", "connect") then some (Value.magicMock 5)
  else if k = ("snowflake.connector.pandas_tools", "write_pandas") then
    some origWritePandas
  else none

def cSessionParamsA : SPDict := [(telemetryKey, SPVal.bool true)]

def cSessionParamsB : SPDict := [("FOO", SPVal.int 7)]

/-! Helper lemmas. -/

theorem envUpdate_envUpdate (env : Env) (key : String × String) (v w : Value) :
    envUpdate (envUpdate env key v) key w = envUpdate env key w := by
  funext k
  by_cases h : k = key <;> simp [envUpdate, h]

theorem envUpdate_self (env : Env) (key : String × String) (v : Value)
    (h : env key = some v) : envUpdate env key v = env := by
  funext k
  by_cases hk : k = key
  · subst hk; simp [envUpdate, h]
  · simp [envUpdate, hk]

theorem setupStep_teardown (fakeFns : Registry) (s s' : PatchState)
    (im : String) (h : setupStep fakeFns s im = Except.ok s') :
    teardown s'.env s'.stack = teardown s.env s.stack := by
  unfold setupStep at h
  split at h
  · exact absurd h (by simp)
  next fn henv =>
    split at h
    · injection h with h
      subst h
      rfl
    next hnm =>
      split at h
      · exact absurd h (by simp)
      next fake hreg =>
        injection h with h
        subst h
        show teardown
            (envUpdate (envUpdate s.env (splitTarget im) (Value.magicMock fake))
              (splitTarget im) fn) s.stack = teardown s.env s.stack
        rw [envUpdate_envUpdate, envUpdate_self s.env (splitTarget im) fn henv]

theorem setupLoop_teardown (fakeFns : Registry) (targets : List String) :
    ∀ s : PatchState, (setupLoop fakeFns s targets).2 = none →
      teardown (setupLoop fakeFns s targets).1.env
          (setupLoop fakeFns s targets).1.stack
        = teardown s.env s.stack := by
  induction targets with
  | nil => intro s _; rfl
  | cons im rest ih =>
    intro s h
    cases hstep : setupStep fakeFns s im with
    | error e => simp [setupLoop, hstep] at h
    | ok s' =>
      simp only [setupLoop, hstep] at h ⊢
      rw [ih s' h, setupStep_teardown fakeFns s s' im hstep]

theorem patchSetup_teardown (env : Env) (extras : List String)
    (h : (patchSetup env extras).2 = none) :
    teardown (patchSetup env extras).1.env (patchSetup env extras).1.stack
      = env := by
  unfold patchSetup at h ⊢
  split
  · rfl
  next c heq =>
    split
    · rfl
    next hnm =>
      split
      · rfl
      next w heq2 =>
        simp only [heq] at h
        rw [if_neg hnm] at h
        simp only [heq2] at h
        exact setupLoop_teardown [(c, fsConnectFake), (w, writePandasFake)]
          (stdTargets ++ extras) ⟨env, []⟩ h

/-- Claim C1: for every sequence of extra targets whose setup pass succeeds
(each extra target resolves to a standard-mapped original or is already
substituted), after the patch scope exits normally every module symbol equals
the value it had before the scope opened: the whole symbol table is restored
exactly (round-trip restoration of all substitutions). -/
theorem patch_roundtrip (env : Env) (extras : List String)
    (h : (patchSetup env extras).2 = none) :
    (patchScope env extras).1 = env := by
  unfold patchScope
  cases hps : patchSetup env extras with
  | mk s err =>
    cases err with
    | some e => rw [hps] at h; exact absurd h (by simp)
    | none =>
      have := patchSetup_teardown env extras h
      rw [hps] at this
      exact this

theorem patch_roundtrip_witness :
    (patchSetup cEnv ["mymod.connect2"]).2 = none ∧
    (patchScope cEnv ["mymod.connect2"]).1 = cEnv :=
  ⟨by decide, patch_roundtrip cEnv ["mymod.connect2"] (by decide)⟩

theorem setupStep_stackMocked (fakeFns : Registry) (s s' : PatchState)
    (im : String) (h : setupStep fakeFns s im = Except.ok s')
    (hs : stackMocked s) : stackMocked s' := by
  unfold setupStep at h
  split at h
  · exact absurd h (by simp)
  next fn henv =>
    split at h
    · injection h with h; subst h; exact hs
    next hnm =>
      split at h
      · exact absurd h (by simp)
      next fake hreg =>
        injection h with h
        subst h
        intro rec hrec
        rcases List.mem_cons.mp hrec with hhead | htail
        · subst hhead
          exact ⟨fake, by simp [envUpdate]⟩
        · obtain ⟨fid, hfid⟩ := hs rec htail
          by_cases hk : rec.1 = splitTarget im
          · exact ⟨fake, by simp [envUpdate, hk]⟩
          · exact ⟨fid, by simpa [envUpdate, hk] using hfid⟩

theorem setupLoop_stackMocked (fakeFns : Registry) (targets : List String) :
    ∀ s : PatchState, stackMocked s →
      stackMocked (setupLoop fakeFns s targets).1 := by
  induction targets with
  | nil => intro s hs; exact hs
  | cons im rest ih =>
    intro s hs
    cases hstep : setupStep fakeFns s im with
    | error e => simp only [setupLoop, hstep]; exact hs
    | ok s' =>
      simp only [setupLoop, hstep]
      exact ih s' (setupStep_stackMocked fakeFns s s' im hstep hs)

theorem patchSetup_stackMocked (env : Env) (extras : List String) :
    stackMocked (patchSetup env extras).1 := by
  unfold patchSetup
  split
  · intro rec hrec; exact absurd hrec (by simp)
  · split
    · intro rec hrec; exact absurd hrec (by simp)
    · split
      · intro rec hrec; exact absurd hrec (by simp)
      · exact setupLoop_stackMocked _ _ _ (fun rec hrec => absurd hrec (by simp))

/-- Claim C2 counterexample: with the concrete pre-scope table `cEnv`, the
extra target `mymod.missing` names a symbol its module does not define.  The
setup error (`assert fn` failure) propagates, but the substitution applied
earlier in the same pass to `snowflake.connector.connect` has NOT been
reversed: the symbol still holds the substitution artifact, not its pre-scope
value, because the generator never reached the `try`/`finally` that closes the
`ExitStack`. -/
theorem patch_setup_error_counterexample :
    (patchScope cEnv ["mymod.missing"]).2
        = some (PatchError.noModuleVar "mymod.missing") ∧
    (patchScope cEnv ["mymod.missing"]).1 ("snowflake.connector", "connect")
        = some (Value.magicMock fsConnectFake) ∧
    cEnv ("snowflake.connector", "connect") = some origConnect ∧
    origConnect ≠ Value.magicMock fsConnectFake := by
  exact ⟨by decide, by decide, by decide, by decide⟩

/-- Claim C2 amended: if setup of a patch scope fails partway through the
target list, the setup error propagates to the caller with every substitution
applied earlier in that same pass left in place: no reversal happens (the
`ExitStack` is never closed on a setup failure), and each symbol recorded on
the undo stack still holds a substitution artifact rather than its pre-scope
value. -/
theorem patch_setup_error_leaves_substitutions (env : Env)
    (extras : List String) (e : PatchError)
    (h : (patchSetup env extras).2 = some e) :
    patchScope env extras = ((patchSetup env extras).1.env, some e) ∧
    ∀ rec ∈ (patchSetup env extras).1.stack, ∃ fid,
      (patchScope env extras).1 rec.1 = some (Value.magicMock fid) := by
  have hscope : patchScope env extras = ((patchSetup env extras).1.env, some e) := by
    unfold patchScope
    cases hps : patchSetup env extras with
    | mk s err =>
      cases err with
      | some e' =>
        rw [hps] at h
        simp only at h
        injection h with h
        subst h
        rfl
      | none => rw [hps] at h; exact absurd h (by simp)
  refine ⟨hscope, ?_⟩
  intro rec hrec
  obtain ⟨fid, hfid⟩ := patchSetup_stackMocked env extras rec hrec
  exact ⟨fid, by rw [hscope]; exact hfid⟩

theorem patch_setup_error_leaves_substitutions_witness :
    (patchSetup cEnv ["mymod.missing"]).2
        = some (PatchError.noModuleVar "mymod.missing") ∧
    (patchScope cEnv ["mymod.missing"]
        = ((patchSetup cEnv ["mymod.missing"]).1.env,
           some (PatchError.noModuleVar "mymod.missing")) ∧
     ∀ rec ∈ (patchSetup cEnv ["mymod.missing"]).1.stack, ∃ fid,
       (patchScope cEnv ["mymod.missing"]).1 rec.1
         = some (Value.magicMock fid)) :=
  ⟨by decide,
   patch_setup_error_leaves_substitutions cEnv ["mymod.missing"]
     (PatchError.noModuleVar "mymod.missing") (by decide)⟩

/-- Claim C3: calling `patch` while a patch scope is already active (the
primary standard target `snowflake.connector.connect` already holds a
substitution artifact) fails the entry-guard assert before applying any new
substitution, leaving every module symbol unchanged. -/
theorem patch_reentry_rejected (env : Env) (extras : List String) (fid : Nat)
    (h : env ("snowflake.connector", "connect") = some (Value.magicMock fid)) :
    patchScope env extras = (env, some PatchError.alreadyPatched) := by
  unfold patchScope patchSetup
  rw [h]
  simp [isMagicMock]

theorem patch_reentry_rejected_witness :
    cEnvPatched ("snowflake.connector", "connect")
        = some (Value.magicMock 5) ∧
    patchScope cEnvPatched ["mymod.connect2"]
        = (cEnvPatched, some PatchError.alreadyPatched) :=
  ⟨by decide, patch_reentry_rejected cEnvPatched ["mymod.connect2"] 5 (by decide)⟩

/-- Claim C6: a target whose current value in its resolved module is already a
substitution artifact — detected by its wrapper type (any `MagicMock`,
whatever its side effect), not by identity against the registry — is skipped
without error and without installing a new substitution: the step leaves the
state untouched and the pass continues with the remaining targets, so double
substitution of the same symbol never occurs. -/
theorem patch_skip_substituted (fakeFns : Registry) (s : PatchState)
    (im : String) (rest : List String) (fid : Nat)
    (h : s.env (splitTarget im) = some (Value.magicMock fid)) :
    setupStep fakeFns s im = Except.ok s ∧
    setupLoop fakeFns s (im :: rest) = setupLoop fakeFns s rest := by
  have hstep : setupStep fakeFns s im = Except.ok s := by
    unfold setupStep
    rw [h]
    simp [isMagicMock]
  exact ⟨hstep, by simp only [setupLoop, hstep]⟩

theorem patch_skip_substituted_witness :
    (PatchState.mk cEnvPatched []).env
        (splitTarget "snowflake.connector.connect")
        = some (Value.magicMock 5) ∧
    (setupStep [(origConnect, fsConnectFake)] ⟨cEnvPatched, []⟩
        "snowflake.connector.connect" = Except.ok ⟨cEnvPatched, []⟩ ∧
     setupLoop [(origConnect, fsConnectFake)] ⟨cEnvPatched, []⟩
        ["snowflake.connector.connect"]
        = setupLoop [(origConnect, fsConnectFake)] ⟨cEnvPatched, []⟩ []) :=
  ⟨by decide,
   patch_skip_substituted [(origConnect, fsConnectFake)] ⟨cEnvPatched, []⟩
     "snowflake.connector.connect" [] 5 (by decide)⟩

/-- Claim C7: a target whose resolved current value is not a substitution
artifact and is not (by identity) one of the original callables in the fake
registry fails the pass with the unmapped-target usage error; the loop stops
there with the state as it stood, so an extra target can never introduce a
substitution for a callable outside the standard set. -/
theorem patch_unmapped_target_rejected (fakeFns : Registry) (s : PatchState)
    (im : String) (rest : List String) (v : Value)
    (h : s.env (splitTarget im) = some v) (hm : isMagicMock v = false)
    (hr : registryLookup fakeFns v = none) :
    setupLoop fakeFns s (im :: rest)
      = (s, some (PatchError.unmappedTarget im)) := by
  have hstep : setupStep fakeFns s im
      = Except.error (PatchError.unmappedTarget im) := by
    unfold setupStep
    rw [h]
    simp [hm, hr]
  simp only [setupLoop, hstep]

theorem patch_unmapped_target_rejected_witness :
    (cEnv (splitTarget "mymod.unrelated") = some (Value.other 42) ∧
     isMagicMock (Value.other 42) = false ∧
     registryLookup [(origConnect, fsConnectFake),
       (origWritePandas, writePandasFake)] (Value.other 42) = none) ∧
    setupLoop [(origConnect, fsConnectFake), (origWritePandas, writePandasFake)]
        ⟨cEnv, []⟩ ["mymod.unrelated"]
      = (⟨cEnv, []⟩, some (PatchError.unmappedTarget "mymod.unrelated")) :=
  ⟨⟨by decide, by decide, by decide⟩,
   patch_unmapped_target_rejected
     [(origConnect, fsConnectFake), (origWritePandas, writePandasFake)]
     ⟨cEnv, []⟩ "mymod.unrelated" [] (Value.other 42)
     (by decide) (by decide) (by decide)⟩

/-- Claim C4: when the background execution context terminates without ever
setting the started flag, the readiness poll exits with `started = false`, the
manager raises the startup-failure error, and the scope never yields
connection parameters. -/
theorem server_startup_failure (started bodyRaises : Bool) (port : Int)
    (sp : Option SPDict) (h : started = false) :
    serverScopeTrace started bodyRaises = [ServerEvent.raiseStartupFailure] ∧
    ServerEvent.yieldParams ∉ serverScopeTrace started bodyRaises ∧
    serverScopeYield started port sp = none := by
  subst h
  refine ⟨rfl, ?_, rfl⟩
  intro hmem
  rw [show serverScopeTrace false bodyRaises
      = [ServerEvent.raiseStartupFailure] from rfl] at hmem
  simp at hmem

theorem server_startup_failure_witness :
    serverScopeTrace false true = [ServerEvent.raiseStartupFailure] ∧
    ServerEvent.yieldParams ∉ serverScopeTrace false true ∧
    serverScopeYield false 8888 none = none :=
  server_startup_failure false true 8888 none rfl

/-- Claim C5: on every exit of a server scope that reached the ready state,
whether the caller's block returns normally or raises, the manager's actions
after yielding are ordered: the exit-requested signal is set, then the thread
join completes, and only then does control leave the scope (normal return or
propagation of the block's exception). -/
theorem server_signal_then_join (bodyRaises : Bool) :
    occursBefore ServerEvent.yieldParams ServerEvent.setShouldExit
      (serverScopeTrace true bodyRaises) = true ∧
    occursBefore ServerEvent.setShouldExit ServerEvent.joinThread
      (serverScopeTrace true bodyRaises) = true ∧
    occursBefore ServerEvent.joinThread
      (if bodyRaises then ServerEvent.propagateBodyError
       else ServerEvent.returnToCaller)
      (serverScopeTrace true bodyRaises) = true ∧
    (if bodyRaises then ServerEvent.propagateBodyError
     else ServerEvent.returnToCaller) ∈ serverScopeTrace true bodyRaises := by
  cases bodyRaises <;> exact ⟨by decide, by decide, by decide, by decide⟩

/-- Claim C9: with no explicit port, the resolved port is the OS-assigned
ephemeral port of the throwaway loopback socket, it lies in [1024, 65535],
and it is the port carried by the yielded connection parameters. -/
theorem server_ephemeral_port_range (osAssigned : Int) (sp : Option SPDict)
    (h : isEphemeralPort osAssigned) :
    1024 ≤ resolvePort none osAssigned ∧
    resolvePort none osAssigned ≤ 65535 ∧
    (serverConnParams (resolvePort none osAssigned) sp).port
      = resolvePort none osAssigned := by
  obtain ⟨h1, h2⟩ := h
  refine ⟨?_, ?_, rfl⟩
  · show (1024 : Int) ≤ osAssigned
    omega
  · show osAssigned ≤ (65535 : Int)
    omega

theorem server_ephemeral_port_range_witness :
    isEphemeralPort 54321 ∧
    (1024 ≤ resolvePort none 54321 ∧ resolvePort none 54321 ≤ 65535 ∧
     (serverConnParams (resolvePort none 54321) none).port
       = resolvePort none 54321) :=
  ⟨by decide, server_ephemeral_port_range 54321 none (by decide)⟩

/-- Claim C10: an explicit `port=0` is falsy, so it takes the same allocation
branch as no port at all: the resolved port is the OS-assigned ephemeral port,
and since that port is in the ephemeral range the server never binds port 0
and the yielded port is never 0. -/
theorem server_port_zero_like_none (osAssigned : Int)
    (h : isEphemeralPort osAssigned) :
    resolvePort (some 0) osAssigned = resolvePort none osAssigned ∧
    resolvePort (some 0) osAssigned ≠ 0 := by
  obtain ⟨h1, h2⟩ := h
  constructor
  · rfl
  · show ¬ (if (0 : Int) = 0 then osAssigned else 0) = 0
    rw [if_pos rfl]
    omega

theorem server_port_zero_like_none_witness :
    isEphemeralPort 54322 ∧
    (resolvePort (some 0) 54322 = resolvePort none 54322 ∧
     resolvePort (some 0) 54322 ≠ 0) :=
  ⟨by decide, server_port_zero_like_none 54322 (by decide)⟩

theorem spLookup_cons (k k' : String) (v : SPVal) (l : SPDict) :
    spLookup k ((k', v) :: l) = if k' = k then some v else spLookup k l := rfl

theorem spLookup_filter_default (sp : SPDict) (k : String)
    (hk : ¬ telemetryKey = k) :
    spLookup k (sp.filter
        (fun kv => (spLookup kv.1 defaultSessionParameters).isNone))
      = spLookup k sp := by
  induction sp with
  | nil => rfl
  | cons kv rest ih =>
    cases kv with
    | mk k' v' =>
      by_cases hkv : telemetryKey = k'
      · have hne : ¬ k' = k := fun hc => hk (hkv.trans hc)
        rw [List.filter_cons_of_neg
          (by simp [defaultSessionParameters, spLookup, hkv])]
        rw [ih, spLookup_cons, if_neg hne]
      · rw [List.filter_cons_of_pos
          (by simp [defaultSessionParameters, spLookup, hkv])]
        rw [spLookup_cons, spLookup_cons]
        by_cases hke : k' = k
        · rw [if_pos hke, if_pos hke]
        · rw [if_neg hke, if_neg hke, ih]

/-- Claim C8: the session parameters yielded by `server` are the default
telemetry-disabling dict merged with the caller's mapping, with the caller
winning: every caller-supplied key maps to the caller's value (including on
collision with the default), and when the caller did not supply the telemetry
key, the merged mapping still carries the default telemetry-disabling entry. -/
theorem server_session_parameters_merge (sp : SPDict) (k : String) (v : SPVal)
    (port : Int) :
    (spLookup k sp = some v →
      spLookup k (serverConnParams port (some sp)).session_parameters
        = some v) ∧
    (spLookup telemetryKey sp = none →
      spLookup telemetryKey (serverConnParams port (some sp)).session_parameters
        = some (SPVal.bool false)) := by
  have hcons : (serverConnParams port (some sp)).session_parameters
      = (telemetryKey, (spLookup telemetryKey sp).getD (SPVal.bool false)) ::
        sp.filter (fun kv => (spLookup kv.1 defaultSessionParameters).isNone) :=
    rfl
  constructor
  · intro h
    rw [hcons, spLookup_cons]
    by_cases hk : telemetryKey = k
    · rw [if_pos hk, hk]
      rw [h]
      rfl
    · rw [if_neg hk, spLookup_filter_default sp k hk]
      exact h
  · intro h
    rw [hcons, spLookup_cons, if_pos rfl, h]
    rfl

theorem server_session_parameters_merge_witness :
    (spLookup telemetryKey cSessionParamsA = some (SPVal.bool true) ∧
     spLookup telemetryKey
        (serverConnParams 9999 (some cSessionParamsA)).session_parameters
       = some (SPVal.bool true)) ∧
    (spLookup telemetryKey cSessionParamsB = none ∧
     spLookup telemetryKey
        (serverConnParams 9999 (some cSessionParamsB)).session_parameters
       = some (SPVal.bool false)) :=
  ⟨⟨by decide,
    (server_session_parameters_merge cSessionParamsA telemetryKey
      (SPVal.bool true) 9999).1 (by decide)⟩,
   ⟨by decide,
    (server_session_parameters_merge cSessionParamsB telemetryKey
      (SPVal.bool true) 9999).2 (by decide)⟩⟩
